import Mathlib

/-!
Verification of the CloudCreators front end (securityexpertteam/CloudCreators).

This file gives a shallow embedding, in Lean 4, of the client-side logic of the
CloudCreators dashboard, translated from the JavaScript sources:

* `Frontend/src/ScheduleScan/Schedulescan.js` — the scan-scheduling state
  machine: countdown formatting, the mount / countdown / polling effects and
  the submit, reset and timezone-change handlers;
* `Frontend/src/StandardConfig/StandardConfigForm.js` — percentage-field
  validation at save time and the percentage-input sanitizer;
* `Frontend/src/UserOnboarding/userOnboarding.js` — the `handleAddUser`
  required-field validation;
* `Frontend/src/SignUp/SignUp.js` — the signup form with `required` inputs;
* `Frontend/src/Dashboard/Dashboard.js` — the group-by cost aggregation and
  the cost-descending table sort.

Machine numbers are modelled by `Int`/`Nat`/`ℚ`; JavaScript's `NaN` is
modelled by `Option ℚ` with `none` standing for `NaN`.  Timer effects are
modelled as an explicit event-step function on the component state: a timer
callback can fire only while its installing condition holds (a countdown tick
requires `countdownActive ∧ step = 1`, a poll tick requires `polling`),
mirroring the `useEffect` install/cleanup pairs in the source.
-/

namespace CloudCreators

/-! ### dayjs values

A dayjs value is an absolute instant (milliseconds since the epoch) together
with the display timezone.  `.utc()` keeps the instant and switches the
display zone to UTC; `.tz z` keeps the instant and switches the display zone
to `z`.  dayjs's default `.format()` template is `YYYY-MM-DDTHH:mm:ssZ`,
which has *second* precision: the formatted string determines the instant
only up to the whole second, so we represent the formatted string of a UTC
value by its (floored) epoch-second count, and re-parsing it with
`dayjs.utc(...)` yields that many whole seconds. -/

structure Dayjs where
  epochMs : Int
  zone : String
deriving DecidableEq, Repr

def Dayjs.utc (d : Dayjs) : Dayjs := ⟨d.epochMs, "UTC"⟩

def Dayjs.tz (d : Dayjs) (z : String) : Dayjs := ⟨d.epochMs, z⟩

/-- The epoch-second count encoded by `d.format()` (second precision). -/
def Dayjs.formatSeconds (d : Dayjs) : Int := Int.fdiv d.epochMs 1000

/-- `dayjs.utc(s)` applied to a formatted string encoding `sec` whole seconds. -/
def dayjsUtcOfSeconds (sec : Int) : Dayjs := ⟨sec * 1000, "UTC"⟩

/-- `a.diff(b)` — difference of the two instants in milliseconds. -/
def Dayjs.diff (a b : Dayjs) : Int := a.epochMs - b.epochMs

/-- The fixed timezone list offered by the ScheduleScan selector
(label, IANA zone value). -/
def timezones : List (String × String) :=
  [("India (IST)", "Asia/Kolkata"),
   ("UK (GMT)", "Europe/London"),
   ("US Eastern (EST)", "America/New_York"),
   ("US Pacific (PST)", "America/Los_Angeles")]

/-! ### ScheduleScan: countdown formatting (`formatCountdown`) -/

structure CountdownParts where
  days : Nat
  hours : Nat
  minutes : Nat
  seconds : Nat
deriving DecidableEq, Repr

/-- The day/hour/minute/second decomposition computed by `formatCountdown`
for a positive millisecond difference (`totalSeconds = Math.floor(ms/1000)`;
for `ms > 0` Lean's `Int` division agrees with `Math.floor`). -/
def countdownParts (ms : Int) : CountdownParts :=
  let totalSeconds := (ms / 1000).toNat
  { days := totalSeconds / (3600 * 24)
    hours := (totalSeconds % (3600 * 24)) / 3600
    minutes := (totalSeconds % 3600) / 60
    seconds := totalSeconds % 60 }

def formatCountdown (ms : Int) : String :=
  if ms ≤ 0 then "now!"
  else
    let p := countdownParts ms
    let days := p.days
    let hours := p.hours
    let minutes := p.minutes
    let seconds := p.seconds
    s!"{days}d {hours}h {minutes}m {seconds}s"

/-! ### ScheduleScan: component state and events -/

structure ScanState where
  step : Nat
  scanStatus : String
  countdownMsg : String
  countdownActive : Bool
  polling : Bool
  selectedDateTime : Dayjs
  selectedZone : String
deriving DecidableEq, Repr

/-- The `/last_scan/{email}` response body (`status`, optional
`scheduled_time`); the scheduled time is carried as a UTC epoch-millisecond
instant.  `none` for `scheduledTime` models an absent/falsy field. -/
structure LastScan where
  status : String
  scheduledTime : Option Int
deriving DecidableEq, Repr

/-- Externally observable effects of one event handler run: `alert(...)`
calls in order, and which HTTP requests the handler issued. -/
structure EventOut where
  alerts : List String
  postTriggers : Bool
  getTriggerStatus : Bool
  getLastScan : Bool
deriving DecidableEq, Repr

def EventOut.silent : EventOut :=
  { alerts := [], postTriggers := false, getTriggerStatus := false, getLastScan := false }

/-- Events that can reach the mounted ScheduleScan component (a logged-in
user is assumed throughout, so the `!user` redirects are not modelled):

* `mountResult r` — the mount effect's `/last_scan` fetch resolved (`some`)
  or rejected (`none`);
* `countdownFire now` — the 1-second countdown interval fired at instant
  `now` (epoch ms);
* `submitOk msg` / `submitErr detail` — the `POST /triggers` of
  `handleSubmit` resolved with `message = msg`, or rejected with optional
  `error.response.data.detail`;
* `pollResult r` — the 3-second poll interval fired and its
  `/trigger_status` request resolved with a status (`some`) or threw
  (`none`);
* `zoneChange z` — the timezone selector changed to `z`;
* `scheduleAgain now` — the "Schedule Again" button (its
  `setSelectedDateTime(dayjs())` takes the current instant `now`);
* `nextClick` — the "Next" button (navigation only). -/
inductive ScanEvent where
  | mountResult (r : Option LastScan)
  | countdownFire (now : Int)
  | submitOk (msg : String)
  | submitErr (detail : Option String)
  | pollResult (r : Option String)
  | zoneChange (z : String)
  | scheduleAgain (now : Int)
  | nextClick
deriving DecidableEq, Repr

/-- `canSchedule = !scanStatus || scanStatus === "Completed"` (the empty
string is the only falsy string). -/
def canSchedule (s : ScanState) : Bool :=
  s.scanStatus = "" || s.scanStatus = "Completed"

/-- The timezone-change handler: the new value is
`dayjs.utc(prev.utc().format()).tz(newZone)` and the selected zone becomes
`newZone`. -/
def handleZoneChange (s : ScanState) (newZone : String) : ScanState :=
  { s with
    selectedDateTime := (dayjsUtcOfSeconds s.selectedDateTime.utc.formatSeconds).tz newZone
    selectedZone := newZone }

/-- One step of the ScheduleScan component: the state update and the
observable effects of handling event `e` in state `s`, translated branch by
branch from the `useEffect` bodies and click handlers in
`Schedulescan.js`. -/
def scanStep (s : ScanState) (e : ScanEvent) : ScanState × EventOut :=
  match e with
  | .mountResult r =>
    match r with
    | none =>
      ({ s with step := 0, countdownActive := false, polling := false },
       { EventOut.silent with getLastScan := true })
    | some ls =>
      let s := { s with scanStatus := ls.status }
      let out := { EventOut.silent with getLastScan := true }
      if h : ls.status = "Pending" ∧ ls.scheduledTime.isSome then
        ({ s with step := 1, countdownActive := true, polling := false,
                  selectedDateTime :=
                    (Dayjs.tz ⟨ls.scheduledTime.get h.2, "UTC"⟩ s.selectedZone) }, out)
      else if ls.status = "InProgress" then
        ({ s with step := 2, countdownActive := false, polling := true }, out)
      else if ls.status = "Completed" then
        ({ s with step := 3, countdownActive := false, polling := false }, out)
      else
        ({ s with step := 0, countdownActive := false, polling := false }, out)
  | .countdownFire now =>
    if s.countdownActive ∧ s.step = 1 then
      let diff := s.selectedDateTime.diff ⟨now, s.selectedZone⟩
      let s := { s with countdownMsg := s!"Your scan starts in {formatCountdown diff}" }
      if diff ≤ 0 then
        ({ s with countdownActive := false, countdownMsg := "Scan is starting...",
                  step := 2, polling := true }, EventOut.silent)
      else (s, EventOut.silent)
    else (s, EventOut.silent)
  | .submitOk msg =>
    ({ s with countdownActive := true, step := 1, scanStatus := "Pending", polling := false },
     { EventOut.silent with postTriggers := true, alerts := [msg] })
  | .submitErr detail =>
    (s, { EventOut.silent with postTriggers := true,
                               alerts := [detail.getD "Failed to save schedule"] })
  | .pollResult r =>
    if s.polling then
      match r with
      | none =>
        ({ s with scanStatus := "" }, { EventOut.silent with getTriggerStatus := true })
      | some st =>
        let s := { s with scanStatus := st }
        let s := if st = "InProgress" then { s with step := 2 } else s
        if st = "Completed" then
          ({ s with step := 3, countdownMsg := "Scan is completed! Click Next for details.",
                    polling := false },
           { EventOut.silent with getTriggerStatus := true })
        else (s, { EventOut.silent with getTriggerStatus := true })
    else (s, EventOut.silent)
  | .zoneChange z => (handleZoneChange s z, EventOut.silent)
  | .scheduleAgain now =>
    ({ s with step := 0, scanStatus := "", countdownMsg := "",
              selectedDateTime := ⟨now, "local"⟩, countdownActive := false,
              polling := false }, EventOut.silent)
  | .nextClick => (s, EventOut.silent)

/-- The component state after a sequence of events. -/
def scanRun (s : ScanState) (evs : List ScanEvent) : ScanState :=
  evs.foldl (fun st e => (scanStep st e).1) s

/-- How many `GET /trigger_status` requests a sequence of events issues. -/
def triggerStatusRequests (s : ScanState) : List ScanEvent → Nat
  | [] => 0
  | e :: evs =>
    (if (scanStep s e).2.getTriggerStatus then 1 else 0) +
      triggerStatusRequests (scanStep s e).1 evs

/-- Events other than a schedule action (a `handleSubmit` outcome) and other
than a component remount (whose `/last_scan` fetch is a different request and
re-derives the state from the server). -/
def nonScheduleEvent : ScanEvent → Bool
  | .submitOk _ => false
  | .submitErr _ => false
  | .mountResult _ => false
  | _ => true

/-- The initial component state (`useState` initialisers; `dayjs()` at
instant `now`, in the runtime's local zone). -/
def initialScanState (now : Int) : ScanState :=
  { step := 0, scanStatus := "", countdownMsg := "", countdownActive := false,
    polling := false, selectedDateTime := ⟨now, "local"⟩,
    selectedZone := "Asia/Kolkata" }

/-! #### Form-control disabling (`disabled={...}` expressions) -/

def timezoneDisabled (s : ScanState) : Bool :=
  !canSchedule s || decide (s.step > 0)

def dateTimePickerDisabled (s : ScanState) : Bool :=
  decide (s.step > 0) || !canSchedule s

def scheduleBtnDisabled (s : ScanState) : Bool :=
  decide (s.step > 0) || !canSchedule s

/-! ### StandardConfigForm: `CONFIG_TYPES` and save-time validation

A submitted field value is modelled by what JavaScript's `Number(...)`
coercion sees: the empty string (skipped), a value that coerces to `NaN`, or
a numeric value. -/

inductive FieldVal where
  | empty
  | nan
  | num (q : ℚ)
deriving DecidableEq, Repr

inductive FieldType where
  | checkbox
  | percentage
  | number
  | dropdown (options : List String)
deriving DecidableEq, Repr

structure CfgField where
  name : String
  label : String
  ftype : FieldType
deriving DecidableEq, Repr

structure CfgType where
  key : String
  label : String
  fields : List CfgField
deriving DecidableEq, Repr

def dbTypeOptions : List String :=
  ["sql", "mysql", "postgresql", "mariadb", "cosmos", "redis", "mongodb", "synapse"]

def CONFIG_TYPES : List CfgType :=
  [⟨"general", "General Configuration",
     [⟨"gen_untagged", "Include Untagged Resources", .checkbox⟩,
      ⟨"gen_orphaned", "Include Orphaned Resources", .checkbox⟩]⟩,
   ⟨"compute_engine", "Compute Engine",
     [⟨"cmp_cpu_usage", "CPU Usage (%)", .percentage⟩,
      ⟨"cmp_memory_usage", "Memory Usage (%)", .percentage⟩,
      ⟨"cmp_network_usage", "Network Usage (%)", .percentage⟩]⟩,
   ⟨"kubernetes", "Kubernetes",
     [⟨"k8s_node_cpu_percentage", "Node CPU Usage (%)", .percentage⟩,
      ⟨"k8s_node_memory_percentage", "Node Memory Usage(%)", .percentage⟩,
      ⟨"k8s_node_count", "Number of Nodes", .number⟩,
      ⟨"k8s_volume_percentage", "Persistent Volume Usage (%)", .percentage⟩]⟩,
   ⟨"cloud_storage", "Cloud Storage",
     [⟨"stor_size", "Total Storage Size (GB/TB)", .number⟩,
      ⟨"stor_access_frequency", "Access Frequency", .dropdown ["Hot", "Cold"]⟩,
      ⟨"stor_nw_egress", "Network Egress (GB)", .number⟩,
      ⟨"stor_lifecycle_enabled", "Lifecycle Policies Enabled?", .checkbox⟩]⟩,
   ⟨"database", "Database",
     [⟨"db_type", "DB Type", .dropdown dbTypeOptions⟩]⟩]

/-- `raw === "" → skip`, else `val = Number(raw); isNaN(val) || val < 1 || val > 100`. -/
def badPercVal : FieldVal → Bool
  | .empty => false
  | .nan => true
  | .num q => decide (q < 1) || decide (q > 100)

def percErrorMsg (label typeLabel : String) : String :=
  s!"❗ {label} in {typeLabel} must be between 1 and 100."

def dbErrorMsg (dbType : String) : String :=
  s!"❗ DB Size (%) for {dbType} must be between 1 and 100."

/-- The inner validation loop of `handleSubmit` over one type's fields
(`break` on the first error).  `dbType` is `allFormValues.db_type` with the
falsy empty selection as `none`; `a` maps a field name (including the
`{db}_db_size` keys) to its submitted value. -/
def checkFields (typeKey typeLabel : String) (dbType : Option String)
    (a : String → FieldVal) : List CfgField → Option String
  | [] => none
  | f :: rest =>
    if typeKey = "database" ∧ f.name = "db_type" then
      match dbType with
      | some t =>
        if badPercVal (a (t ++ "_db_size")) then some (dbErrorMsg t)
        else checkFields typeKey typeLabel dbType a rest
      | none => checkFields typeKey typeLabel dbType a rest
    else
      match f.ftype with
      | .percentage =>
        if badPercVal (a f.name) then some (percErrorMsg f.label typeLabel)
        else checkFields typeKey typeLabel dbType a rest
      | _ => checkFields typeKey typeLabel dbType a rest

/-- The outer validation loop of `handleSubmit` (`break` on the first
type that produced an error). -/
def validateTypes (dbType : Option String) (a : String → FieldVal) :
    List CfgType → Option String
  | [] => none
  | t :: rest =>
    match checkFields t.key t.label dbType a t.fields with
    | some m => some m
    | none => validateTypes dbType a rest

structure SubmitResult where
  message : String
  posted : Bool
deriving DecidableEq, Repr

/-- `handleSubmit` of `StandardConfigForm`: run the validation loop over
`CONFIG_TYPES`; on the first error set the inline message and return without
the `POST /api/configs`, otherwise issue the POST. -/
def handleSubmitConfig (dbType : Option String) (a : String → FieldVal) : SubmitResult :=
  match validateTypes dbType a CONFIG_TYPES with
  | some m => { message := m, posted := false }
  | none => { message := "✅ Configuration saved successfully!", posted := true }

/-- The percentage-typed fields of `CONFIG_TYPES`, with their labels and
their type's label, in validation order. -/
def percentageFields : List (String × String × String) :=
  CONFIG_TYPES.flatMap fun t =>
    (t.fields.filter fun f => f.ftype = .percentage).map fun f => (f.name, f.label, t.label)

/-- The ordered list of `(lookup key, error message)` checks that
`handleSubmit`'s loop performs: all percentage fields, then (when a DB type
is selected) its `{db}_db_size` value. -/
def configChecks (dbType : Option String) : List (String × String) :=
  percentageFields.map (fun t => (t.1, percErrorMsg t.2.1 t.2.2)) ++
    (match dbType with
     | some t => [(t ++ "_db_size", dbErrorMsg t)]
     | none => [])

/-! ### StandardConfigForm: percentage-input sanitizer (`onChange`) -/

/-- JavaScript `Number(...)` of an all-digit string: its decimal value. -/
def digitsVal (s : String) : Nat :=
  s.toList.foldl (fun a c => a * 10 + (c.toNat - 48)) 0

/-- The percentage-field `onChange` handler: strip non-digits
(`replace(/[^0-9]/g, "")`), truncate to 3 characters (`slice(0, 3)`), and
drop the last digit when the numeric value exceeds 100
(`slice(0, val.length - 1)`).  The stored field value is exactly this
function of the event's input text. -/
def sanitizePercentInput (input : String) : String :=
  let v := String.mk (input.toList.filter Char.isDigit)
  let v := if v.length > 3 then String.mk (v.toList.take 3) else v
  if v ≠ "" ∧ digitsVal v > 100 then String.mk v.toList.dropLast else v

/-! ### UserOnboarding: `handleAddUser` and the mount fetch -/

structure OnbUser where
  cloudName : String
  environment : String
  rootId : String
  managementUnitId : String
  srvaccntName : String
  srvacctPass : String
  gcpJsonFile : Option String
deriving DecidableEq, Repr

/-- The `handleAddUser` validation condition (`!x` on a string is true
exactly for the empty string; `!gcpJsonFile` is true for the `null`
initialiser). -/
def missingRequired (u : OnbUser) : Bool :=
  u.cloudName = "" || u.environment = "" || u.rootId = "" || u.managementUnitId = "" ||
    (if u.cloudName = "GCP" then u.gcpJsonFile = none
     else u.srvaccntName = "" || u.srvacctPass = "")

structure AddUserResult where
  usersList : List OnbUser
  alerts : List String
  requests : Nat
deriving DecidableEq, Repr

/-- `handleAddUser`: reject (alert, list unchanged) when a required field is
missing, else append the entry and clear the form.  The handler issues no
HTTP request in either branch (`requests = 0` is the count of requests the
source function makes). -/
def handleAddUser (u : OnbUser) (usersList : List OnbUser) : AddUserResult :=
  if missingRequired u then
    { usersList := usersList, alerts := ["Please fill all fields"], requests := 0 }
  else
    { usersList := usersList ++ [u], alerts := [], requests := 0 }

/-- The UserOnboarding mount effect (`fetch('/environments/...').then(...)
.then(data => setEnvEntries(data.data || []))`): on success replace the
entries, on failure (`none`) the chain has no catch branch, so nothing
happens to the state and nothing is surfaced.  Result: the new entry list
and the alerts shown. -/
def onboardingMountUpdate (r : Option (List OnbUser)) (cur : List OnbUser) :
    List OnbUser × List String :=
  match r with
  | some d => (d, [])
  | none => (cur, [])

/-! ### SignUp form: `required` inputs

All four SignUp inputs (`firstname`, `lastname`, `email`, `password`) carry
the HTML `required` attribute, so the browser fires the form's `onSubmit`
(and hence `handleSignup`, which issues the `POST /signup`) only when every
required field is non-empty.  `signupFormSubmit` embeds that submission
pipeline; its result is the number of network requests issued. -/

structure SignupForm where
  firstname : String
  lastname : String
  email : String
  password : String
deriving DecidableEq, Repr

def signupRequiredSatisfied (f : SignupForm) : Bool :=
  f.firstname ≠ "" && f.lastname ≠ "" && f.email ≠ "" && f.password ≠ ""

/-- `handleSignup` always issues the `POST /signup` request. -/
def handleSignupRequests : Nat := 1

def signupFormSubmit (f : SignupForm) : Nat :=
  if signupRequiredSatisfied f then handleSignupRequests else 0

/-! ### Dashboard: record fields, `Number`, `parseFloat`, aggregation, sort

A JSON record field is `undefined` (absent or `null` — both falsy), a
number, or a string.  `Number(...)` and `parseFloat(...)` results are
`Option ℚ`, with `none` standing for `NaN`.  The string grammar covered is
unsigned decimal numerals (`"12"`, `"12.5"`, `".5"`, `"5."`, and `""`,
which `Number` maps to `0`); other strings are `NaN`. -/

inductive JSVal where
  | undef
  | num (q : ℚ)
  | str (s : String)
deriving DecidableEq, Repr

def JSVal.truthy : JSVal → Bool
  | .undef => false
  | .num q => decide (q ≠ 0)
  | .str s => decide (s ≠ "")

def natOfDigits (l : List Char) : Nat :=
  l.foldl (fun a c => a * 10 + (c.toNat - 48)) 0

/-- `Number(s)` for a string `s`. -/
def decOfString (s : String) : Option ℚ :=
  if s = "" then some 0
  else
    match s.split (fun c => c = '.') with
    | [a] =>
      if a.toList.all Char.isDigit then some (natOfDigits a.toList : ℚ) else none
    | [a, b] =>
      if (a.toList.all Char.isDigit && b.toList.all Char.isDigit) &&
          !(a = "" && b = "") then
        some ((natOfDigits a.toList : ℚ) + (natOfDigits b.toList : ℚ) / (10 ^ b.length : ℚ))
      else none
    | _ => none

def JSVal.toNumber : JSVal → Option ℚ
  | .undef => none
  | .num q => some q
  | .str s => decOfString s

/-- `parseFloat(s)`: parse the longest numeric prefix; `NaN` when the string
starts with no digit and no `.digit`. -/
def parseFloatStr (s : String) : Option ℚ :=
  let ds := s.toList.takeWhile Char.isDigit
  let rest := s.toList.drop ds.length
  match rest with
  | '.' :: r =>
    let fs := r.takeWhile Char.isDigit
    if ds.isEmpty && fs.isEmpty then none
    else some ((natOfDigits ds : ℚ) + (natOfDigits fs : ℚ) / (10 ^ fs.length : ℚ))
  | _ => if ds.isEmpty then none else some (natOfDigits ds : ℚ)

def JSVal.parseFloatVal : JSVal → Option ℚ
  | .undef => none
  | .num q => some q
  | .str s => parseFloatStr s

/-- A `/api/resources` record: the fields the dashboard groups by, plus its
cost. -/
structure Resource where
  CIO : JSVal
  Entity : JSVal
  Region : JSVal
  ResourceType : JSVal
  CloudProvider : JSVal
  Environment : JSVal
  CostCenter : JSVal
  ApplicationCode : JSVal
  TotalCost : JSVal
deriving DecidableEq, Repr

/-- `parseFloat(r.TotalCost) || 0` — the table's sort key (both `NaN` and
`0` fall to `0`). -/
def costKey (r : Resource) : ℚ :=
  (r.TotalCost.parseFloatVal).getD 0

/-- `[...res.data].sort((a, b) => (parseFloat(b.TotalCost) || 0) -
(parseFloat(a.TotalCost) || 0))` — a sort of the records, non-increasing in
`costKey`. -/
def sortResources (rows : List Resource) : List Resource :=
  List.insertionSort (fun a b => costKey b ≤ costKey a) rows

instance : IsTotal Resource fun a b => costKey b ≤ costKey a :=
  ⟨fun a b => le_total (costKey b) (costKey a)⟩

instance : IsTrans Resource fun a b => costKey b ≤ costKey a :=
  ⟨fun _ _ _ hab hbc => le_trans hbc hab⟩

/-- The JavaScript property key a grouping value indexes `acc` with. -/
def keyStr : JSVal → String
  | .undef => "undefined"
  | .num q => toString q
  | .str s => s

/-- `(acc_entry || 0) + v` where `acc_entry : Option ℚ` is the group's
stored value (`none` = `NaN`, which `|| 0` resets to `0`) and `v` is the
`Number(...)` of the new cost (`none` = `NaN` poisons the entry). -/
def jsAdd (acc : Option ℚ) (v : Option ℚ) : Option ℚ :=
  match v with
  | none => none
  | some q => some (acc.getD 0 + q)

/-- Look a key up in the accumulator object (modelled as an association
list in property-insertion order); `none` means the key is absent. -/
def lookupAcc (acc : List (String × Option ℚ)) (k : String) : Option (Option ℚ) :=
  (acc.find? fun p => p.1 = k).map fun p => p.2

/-- `acc[k] = v` on the accumulator object. -/
def updateAcc (acc : List (String × Option ℚ)) (k : String) (v : Option ℚ) :
    List (String × Option ℚ) :=
  match acc with
  | [] => [(k, v)]
  | p :: rest => if p.1 = k then (k, v) :: rest else p :: updateAcc rest k v

/-- One `reduce` step of a dashboard group-by:
`if (!key || !cost) return acc; acc[key] = (acc[key] || 0) + Number(cost)`.
An absent entry and a `NaN` entry both give base `0` under `|| 0`. -/
def aggStep (key cost : Resource → JSVal) (acc : List (String × Option ℚ))
    (r : Resource) : List (String × Option ℚ) :=
  if (key r).truthy && (cost r).truthy then
    updateAcc acc (keyStr (key r))
      (jsAdd ((lookupAcc acc (keyStr (key r))).join) (cost r).toNumber)
  else acc

/-- A dashboard group-by summary: `rows.reduce(..., {})`. -/
def aggregate (key cost : Resource → JSVal) (rows : List Resource) :
    List (String × Option ℚ) :=
  rows.foldl (aggStep key cost) []

/-- Whether record `r` contributes to group `g` of a summary: both the
group key and the cost must be truthy and the key must spell `g`. -/
def contributes (key cost : Resource → JSVal) (g : String) (r : Resource) : Bool :=
  (key r).truthy && (cost r).truthy && keyStr (key r) = g

/-- Specification-side closed form of one group's accumulated value: fold
the contributing records' `Number(TotalCost)` with the `(acc || 0) + v`
semantics, `none` (key absent) when no record contributes. -/
def groupTotal (key cost : Resource → JSVal) (g : String) (rows : List Resource) :
    Option (Option ℚ) :=
  if (rows.filter (contributes key cost g)).isEmpty then none
  else
    some ((rows.filter (contributes key cost g)).foldl
      (fun a r => jsAdd a (cost r).toNumber) none)

/-- The eight chart summaries of `Dashboard.js`. -/
def cioCostSummary (rows : List Resource) : List (String × Option ℚ) :=
  aggregate (fun r => r.CIO) (fun r => r.TotalCost) rows

def entityCostSummary (rows : List Resource) : List (String × Option ℚ) :=
  aggregate (fun r => r.Entity) (fun r => r.TotalCost) rows

def regionCostSummary (rows : List Resource) : List (String × Option ℚ) :=
  aggregate (fun r => r.Region) (fun r => r.TotalCost) rows

def resourceTypeSummary (rows : List Resource) : List (String × Option ℚ) :=
  aggregate (fun r => r.ResourceType) (fun r => r.TotalCost) rows

def cloudProviderSummary (rows : List Resource) : List (String × Option ℚ) :=
  aggregate (fun r => r.CloudProvider) (fun r => r.TotalCost) rows

def environmentSummary (rows : List Resource) : List (String × Option ℚ) :=
  aggregate (fun r => r.Environment) (fun r => r.TotalCost) rows

def costCenterSummary (rows : List Resource) : List (String × Option ℚ) :=
  aggregate (fun r => r.CostCenter) (fun r => r.TotalCost) rows

def applicationCodeSummary (rows : List Resource) : List (String × Option ℚ) :=
  aggregate (fun r => r.ApplicationCode) (fun r => r.TotalCost) rows

/-- `totalResources = resources.length` — the card counts every record. -/
def totalResources (rows : List Resource) : Nat := rows.length

/-- `totalCost = resources.reduce((sum, r) => sum + (parseFloat(r.TotalCost)
|| 0), 0)`. -/
def totalCostCard (rows : List Resource) : ℚ :=
  rows.foldl (fun sum r => sum + costKey r) 0

/-! ## Theorems -/

/-- Helper: with polling off and the countdown off, any event that is not a
schedule action (and not a remount) keeps both off and issues no
`/trigger_status` request. -/
theorem nonSchedule_preserves_quiet (s : ScanState) (e : ScanEvent)
    (hp : s.polling = false) (hc : s.countdownActive = false)
    (he : nonScheduleEvent e = true) :
    (scanStep s e).1.polling = false ∧ (scanStep s e).1.countdownActive = false ∧
      (scanStep s e).2.getTriggerStatus = false := by
  cases e with
  | mountResult r => simp [nonScheduleEvent] at he
  | countdownFire now => simp [scanStep, hp, hc, EventOut.silent]
  | submitOk msg => simp [nonScheduleEvent] at he
  | submitErr detail => simp [nonScheduleEvent] at he
  | pollResult r => simp [scanStep, hp, hc, EventOut.silent]
  | zoneChange z => simp [scanStep, handleZoneChange, hp, hc, EventOut.silent]
  | scheduleAgain now => simp [scanStep, EventOut.silent]
  | nextClick => simp [scanStep, hp, hc, EventOut.silent]

/-- Helper: the quiet invariant propagated along a whole trace. -/
theorem nonSchedule_trace_quiet (evs : List ScanEvent) :
    ∀ s : ScanState, s.polling = false → s.countdownActive = false →
      (∀ e ∈ evs, nonScheduleEvent e = true) →
      (scanRun s evs).polling = false ∧ triggerStatusRequests s evs = 0 := by
  induction evs with
  | nil => intro s hp _ _; exact ⟨hp, rfl⟩
  | cons e evs ih =>
    intro s hp hc hall
    obtain ⟨hp', hc', hreq⟩ :=
      nonSchedule_preserves_quiet s e hp hc (hall e (List.mem_cons_self e evs))
    obtain ⟨ihp, ihreq⟩ :=
      ih (scanStep s e).1 hp' hc' (fun x hx => hall x (List.mem_cons_of_mem e hx))
    refine ⟨?_, ?_⟩
    · simpa [scanRun] using ihp
    · simp [triggerStatusRequests, hreq, ihreq]

/-- Claim C1: for a scheduled UTC time `T` and current time `N` with
`T − N > 0` ms, `formatCountdown`'s decomposition of
`floor((T−N)/1000)` seconds has hours in `0–23`, minutes and seconds in
`0–59`, and its weighted sum equals `floor((T−N)/1000)`; and the countdown
tick moves the display to "Scan In Progress" (step 2, polling on, countdown
off) exactly once `T − N ≤ 0`, i.e. exactly once `N ≥ T`. -/
theorem claim1_countdown_correct :
    (∀ ms : Int, 0 < ms →
      (countdownParts ms).hours < 24 ∧ (countdownParts ms).minutes < 60 ∧
        (countdownParts ms).seconds < 60 ∧
        (countdownParts ms).days * 86400 + (countdownParts ms).hours * 3600 +
          (countdownParts ms).minutes * 60 + (countdownParts ms).seconds =
          (ms / 1000).toNat) ∧
    (∀ (s : ScanState) (N : Int), s.countdownActive = true → s.step = 1 →
      (((scanStep s (.countdownFire N)).1.step = 2 ∧
        (scanStep s (.countdownFire N)).1.polling = true ∧
        (scanStep s (.countdownFire N)).1.countdownActive = false) ↔
        s.selectedDateTime.epochMs ≤ N)) := by
  constructor
  · intro ms _
    simp only [countdownParts]
    omega
  · intro s N h1 h2
    simp only [scanStep, Dayjs.diff, h1, h2, and_self, if_true, true_and]
    split
    · rename_i h
      simp only [true_and, and_true]
      constructor
      · intro _; omega
      · intro _; trivial
    · rename_i h
      constructor
      · intro hc
        exact absurd hc.1 (by simp [h2])
      · intro hc; omega

/-- Witness for C1 at `T − N = 90061000` ms (1d 1h 1m 1s) and at a concrete
pending state whose scheduled instant 3 ms has been reached at `N = 5`. -/
theorem claim1_countdown_correct_witness :
    ((countdownParts (90061000 : Int)).hours < 24 ∧
      (countdownParts (90061000 : Int)).minutes < 60 ∧
      (countdownParts (90061000 : Int)).seconds < 60 ∧
      (countdownParts (90061000 : Int)).days * 86400 +
        (countdownParts (90061000 : Int)).hours * 3600 +
        (countdownParts (90061000 : Int)).minutes * 60 +
        (countdownParts (90061000 : Int)).seconds = ((90061000 : Int) / 1000).toNat) ∧
    (((scanStep ⟨1, "Pending", "", true, false, ⟨3, "UTC"⟩, "Asia/Kolkata"⟩
        (.countdownFire 5)).1.step = 2 ∧
      (scanStep ⟨1, "Pending", "", true, false, ⟨3, "UTC"⟩, "Asia/Kolkata"⟩
        (.countdownFire 5)).1.polling = true ∧
      (scanStep ⟨1, "Pending", "", true, false, ⟨3, "UTC"⟩, "Asia/Kolkata"⟩
        (.countdownFire 5)).1.countdownActive = false) ↔ (3 : Int) ≤ 5) :=
  ⟨claim1_countdown_correct.1 90061000 (by decide),
   claim1_countdown_correct.2 ⟨1, "Pending", "", true, false, ⟨3, "UTC"⟩, "Asia/Kolkata"⟩
     5 rfl rfl⟩

/-- Claim C2 counterexample: `handleZoneChange` does *not* always preserve
the absolute UTC instant.  With the selected value at epoch instant 1500 ms
(a half second) and the listed zone `"Europe/London"`, the round trip
through `dayjs.utc(prev.utc().format()).tz(z)` truncates the instant to
1000 ms, because dayjs's default format only has second precision. -/
theorem claim2_zone_change_not_instant_preserving :
    "Europe/London" ∈ timezones.map Prod.snd ∧
    ¬((handleZoneChange ⟨0, "", "", false, false, ⟨1500, "Asia/Kolkata"⟩, "Asia/Kolkata"⟩
        "Europe/London").selectedDateTime.epochMs =
      (ScanState.mk 0 "" "" false false ⟨1500, "Asia/Kolkata"⟩
        "Asia/Kolkata").selectedDateTime.epochMs) := by
  constructor
  · decide
  · decide

/-- Claim C2, amended: `handleZoneChange z` replaces the selected value with
`dayjs.utc(d.utc().format()).tz(z)`, whose instant is `d`'s instant
truncated to the whole second below (dayjs's default format has second
precision); the displayed zone becomes `z`, and whenever `d`'s instant is a
whole number of seconds — in particular for any value previously produced by
the picker, the scheduler or a zone change — the absolute UTC instant is
preserved exactly. -/
theorem claim2_zone_change_truncates :
    ∀ (s : ScanState) (z : String),
      (handleZoneChange s z).selectedZone = z ∧
      (handleZoneChange s z).selectedDateTime.zone = z ∧
      (handleZoneChange s z).selectedDateTime.epochMs =
        Int.fdiv s.selectedDateTime.epochMs 1000 * 1000 ∧
      ((1000 : Int) ∣ s.selectedDateTime.epochMs →
        (handleZoneChange s z).selectedDateTime.epochMs =
          s.selectedDateTime.epochMs) := by
  intro s z
  refine ⟨rfl, rfl, rfl, ?_⟩
  intro hdvd
  obtain ⟨k, hk⟩ := hdvd
  simp [handleZoneChange, dayjsUtcOfSeconds, Dayjs.tz, Dayjs.utc, Dayjs.formatSeconds, hk]
  omega

/-- Witness for the amended C2 at a whole-second instant (2000 ms). -/
theorem claim2_zone_change_truncates_witness :
    (handleZoneChange ⟨0, "", "", false, false, ⟨2000, "Asia/Kolkata"⟩, "Asia/Kolkata"⟩
        "Europe/London").selectedZone = "Europe/London" ∧
    (handleZoneChange ⟨0, "", "", false, false, ⟨2000, "Asia/Kolkata"⟩, "Asia/Kolkata"⟩
        "Europe/London").selectedDateTime.zone = "Europe/London" ∧
    (handleZoneChange ⟨0, "", "", false, false, ⟨2000, "Asia/Kolkata"⟩, "Asia/Kolkata"⟩
        "Europe/London").selectedDateTime.epochMs = Int.fdiv 2000 1000 * 1000 ∧
    ((1000 : Int) ∣ 2000 →
      (handleZoneChange ⟨0, "", "", false, false, ⟨2000, "Asia/Kolkata"⟩, "Asia/Kolkata"⟩
          "Europe/London").selectedDateTime.epochMs = 2000) :=
  claim2_zone_change_truncates
    ⟨0, "", "", false, false, ⟨2000, "Asia/Kolkata"⟩, "Asia/Kolkata"⟩ "Europe/London"

/-- Claim C3: a poll that returns status `"Completed"` sets step 3, turns
polling off and clears the poll interval (the interval exists exactly while
`polling` holds); and from any state with polling and countdown off — in
particular the completed state — no trace of events that contains no
schedule action issues any further `/trigger_status` request, and polling
stays off. -/
theorem claim3_polling_terminates :
    (∀ s : ScanState, s.polling = true →
      (scanStep s (.pollResult (some "Completed"))).1.step = 3 ∧
        (scanStep s (.pollResult (some "Completed"))).1.polling = false ∧
        (scanStep s (.pollResult (some "Completed"))).1.scanStatus = "Completed" ∧
        (scanStep s (.pollResult (some "Completed"))).1.countdownMsg =
          "Scan is completed! Click Next for details.") ∧
    (∀ (s : ScanState) (evs : List ScanEvent),
      s.polling = false → s.countdownActive = false →
      (∀ e ∈ evs, nonScheduleEvent e = true) →
      (scanRun s evs).polling = false ∧ triggerStatusRequests s evs = 0) := by
  constructor
  · intro s hp
    simp [scanStep, hp]
  · intro s evs hp hc hall
    exact nonSchedule_trace_quiet evs s hp hc hall

/-- Witness for C3: the completed poll response at a concrete polling state,
and a concrete non-schedule trace (a further poll tick, a countdown tick and
a reset) from the resulting completed state. -/
theorem claim3_polling_terminates_witness :
    ((scanStep ⟨2, "InProgress", "", false, true, ⟨0, "UTC"⟩, "Asia/Kolkata"⟩
        (.pollResult (some "Completed"))).1.step = 3 ∧
      (scanStep ⟨2, "InProgress", "", false, true, ⟨0, "UTC"⟩, "Asia/Kolkata"⟩
        (.pollResult (some "Completed"))).1.polling = false ∧
      (scanStep ⟨2, "InProgress", "", false, true, ⟨0, "UTC"⟩, "Asia/Kolkata"⟩
        (.pollResult (some "Completed"))).1.scanStatus = "Completed" ∧
      (scanStep ⟨2, "InProgress", "", false, true, ⟨0, "UTC"⟩, "Asia/Kolkata"⟩
        (.pollResult (some "Completed"))).1.countdownMsg =
        "Scan is completed! Click Next for details.") ∧
    ((scanRun ⟨3, "Completed", "", false, false, ⟨0, "UTC"⟩, "Asia/Kolkata"⟩
        [.pollResult (some "InProgress"), .countdownFire 7, .scheduleAgain 9,
         .nextClick]).polling = false ∧
      triggerStatusRequests ⟨3, "Completed", "", false, false, ⟨0, "UTC"⟩, "Asia/Kolkata"⟩
        [.pollResult (some "InProgress"), .countdownFire 7, .scheduleAgain 9,
         .nextClick] = 0) :=
  ⟨claim3_polling_terminates.1 ⟨2, "InProgress", "", false, true, ⟨0, "UTC"⟩, "Asia/Kolkata"⟩
      rfl,
   claim3_polling_terminates.2 ⟨3, "Completed", "", false, false, ⟨0, "UTC"⟩, "Asia/Kolkata"⟩
      [.pollResult (some "InProgress"), .countdownFire 7, .scheduleAgain 9, .nextClick]
      rfl rfl (by decide)⟩

/-- Claim C6: if the mount-time `GET /last_scan/{email}` fails, the
component enters exactly the idle/schedulable state — step 0, countdown
inactive, polling off — and none of the success-path updates happen (the
returned state equals the old state with only those three fields forced, so
`scanStatus` and the selected time are untouched); from the initial state
this leaves scheduling possible. -/
theorem claim6_mount_failure_idle :
    (∀ s : ScanState,
      (scanStep s (.mountResult none)).1 =
        { s with step := 0, countdownActive := false, polling := false } ∧
      (scanStep s (.mountResult none)).2.alerts = []) ∧
    (∀ now : Int,
      (scanStep (initialScanState now) (.mountResult none)).1.step = 0 ∧
      (scanStep (initialScanState now) (.mountResult none)).1.countdownActive = false ∧
      (scanStep (initialScanState now) (.mountResult none)).1.polling = false ∧
      (scanStep (initialScanState now) (.mountResult none)).1.scanStatus = "" ∧
      (scanStep (initialScanState now) (.mountResult none)).1.selectedDateTime =
        (initialScanState now).selectedDateTime ∧
      canSchedule (scanStep (initialScanState now) (.mountResult none)).1 = true ∧
      scheduleBtnDisabled (scanStep (initialScanState now) (.mountResult none)).1 = false) := by
  refine ⟨fun s => ⟨rfl, rfl⟩, fun now => ?_⟩
  simp [scanStep, initialScanState, canSchedule, scheduleBtnDisabled, EventOut.silent]

/-- Claim C10: whenever `step > 0` or `scanStatus` is neither empty nor
`"Completed"` (so `canSchedule` is false) — in particular whenever a scan is
`Pending` or `InProgress` — the timezone selector, the date-time picker and
the "Schedule Scan" button are all disabled, so a second scan cannot be
submitted; and the "Schedule Again" reset clears step, status, countdown
and polling and re-enables all three controls. -/
theorem claim10_single_scan_gating :
    (∀ s : ScanState, s.scanStatus = "Pending" ∨ s.scanStatus = "InProgress" →
      timezoneDisabled s = true ∧ dateTimePickerDisabled s = true ∧
        scheduleBtnDisabled s = true) ∧
    (∀ s : ScanState, 0 < s.step ∨ canSchedule s = false →
      timezoneDisabled s = true ∧ dateTimePickerDisabled s = true ∧
        scheduleBtnDisabled s = true) ∧
    (∀ (s : ScanState) (now : Int),
      (scanStep s (.scheduleAgain now)).1.step = 0 ∧
      (scanStep s (.scheduleAgain now)).1.scanStatus = "" ∧
      (scanStep s (.scheduleAgain now)).1.countdownMsg = "" ∧
      (scanStep s (.scheduleAgain now)).1.countdownActive = false ∧
      (scanStep s (.scheduleAgain now)).1.polling = false ∧
      canSchedule (scanStep s (.scheduleAgain now)).1 = true ∧
      timezoneDisabled (scanStep s (.scheduleAgain now)).1 = false ∧
      dateTimePickerDisabled (scanStep s (.scheduleAgain now)).1 = false ∧
      scheduleBtnDisabled (scanStep s (.scheduleAgain now)).1 = false) := by
  refine ⟨?_, ?_, ?_⟩
  · rintro s (h | h) <;>
      simp [timezoneDisabled, dateTimePickerDisabled, scheduleBtnDisabled, canSchedule, h]
  · rintro s (h | h) <;>
      simp [timezoneDisabled, dateTimePickerDisabled, scheduleBtnDisabled, h]
  · intro s now
    simp [scanStep, timezoneDisabled, dateTimePickerDisabled, scheduleBtnDisabled,
      canSchedule]

/-- Witness for C10 at an in-progress state (status `"InProgress"`,
step 2) and a reset from it. -/
theorem claim10_single_scan_gating_witness :
    (timezoneDisabled ⟨2, "InProgress", "", false, true, ⟨0, "UTC"⟩, "Asia/Kolkata"⟩ = true ∧
      dateTimePickerDisabled ⟨2, "InProgress", "", false, true, ⟨0, "UTC"⟩, "Asia/Kolkata"⟩ =
        true ∧
      scheduleBtnDisabled ⟨2, "InProgress", "", false, true, ⟨0, "UTC"⟩, "Asia/Kolkata"⟩ =
        true) ∧
    (scanStep ⟨3, "Completed", "done", false, false, ⟨0, "UTC"⟩, "Asia/Kolkata"⟩
        (.scheduleAgain 4)).1.step = 0 ∧
    scheduleBtnDisabled
      (scanStep ⟨3, "Completed", "done", false, false, ⟨0, "UTC"⟩, "Asia/Kolkata"⟩
        (.scheduleAgain 4)).1 = false :=
  ⟨claim10_single_scan_gating.1
      ⟨2, "InProgress", "", false, true, ⟨0, "UTC"⟩, "Asia/Kolkata"⟩ (Or.inr rfl),
   (claim10_single_scan_gating.2.2
      ⟨3, "Completed", "done", false, false, ⟨0, "UTC"⟩, "Asia/Kolkata"⟩ 4).1,
   (claim10_single_scan_gating.2.2
      ⟨3, "Completed", "done", false, false, ⟨0, "UTC"⟩, "Asia/Kolkata"⟩ 4).2.2.2.2.2.2.2.2⟩

/-- Claim C7 counterexample: not every catch branch surfaces an alert or a
message.  At a concrete polling state, a failed `/trigger_status` poll (a
request was issued and its catch ran) produces no alert and leaves the
message text unchanged — the catch only silently resets `scanStatus` to the
empty string. -/
theorem claim7_poll_catch_silent :
    (scanStep ⟨2, "InProgress", "Scan is starting...", false, true, ⟨0, "UTC"⟩,
        "Asia/Kolkata"⟩ (.pollResult none)).2.getTriggerStatus = true ∧
    (scanStep ⟨2, "InProgress", "Scan is starting...", false, true, ⟨0, "UTC"⟩,
        "Asia/Kolkata"⟩ (.pollResult none)).2.alerts = [] ∧
    (scanStep ⟨2, "InProgress", "Scan is starting...", false, true, ⟨0, "UTC"⟩,
        "Asia/Kolkata"⟩ (.pollResult none)).1.countdownMsg = "Scan is starting..." ∧
    (scanStep ⟨2, "InProgress", "Scan is starting...", false, true, ⟨0, "UTC"⟩,
        "Asia/Kolkata"⟩ (.pollResult none)).1.scanStatus = "" :=
  ⟨rfl, rfl, rfl, rfl⟩

/-- Claim C7, amended: errors of the user-initiated schedule submission are
caught and surfaced via an alert dialog (`error.response?.data?.detail` or
the fallback text) with the state otherwise unchanged; but the background
catch branches surface nothing — the ScheduleScan mount-fetch catch shows no
alert (it resets to the idle state, claim C6) and the 3-second poll's catch
shows no alert and sets no message, silently clearing `scanStatus` while the
poll interval keeps running (`polling` unchanged); the UserOnboarding mount
fetch has no catch branch at all, so a failure there surfaces nothing and
leaves the entries unchanged.  No failed request is retried automatically
(an erroring handler issues no extra request beyond the one that failed). -/
theorem claim7_error_surfacing_amended :
    (∀ (s : ScanState) (detail : Option String),
      (scanStep s (.submitErr detail)).2.alerts =
        [detail.getD "Failed to save schedule"] ∧
      (scanStep s (.submitErr detail)).1 = s) ∧
    (∀ s : ScanState, s.polling = true →
      (scanStep s (.pollResult none)).2.alerts = [] ∧
      (scanStep s (.pollResult none)).1.countdownMsg = s.countdownMsg ∧
      (scanStep s (.pollResult none)).1.scanStatus = "" ∧
      (scanStep s (.pollResult none)).1.polling = true ∧
      (scanStep s (.pollResult none)).2.getTriggerStatus = true) ∧
    (∀ s : ScanState, (scanStep s (.mountResult none)).2.alerts = []) ∧
    (∀ (r : Option (List OnbUser)) (cur : List OnbUser),
      (onboardingMountUpdate r cur).2 = [] ∧ (onboardingMountUpdate none cur).1 = cur) := by
  refine ⟨fun s detail => ⟨rfl, rfl⟩, fun s hp => ?_, fun s => rfl, fun r cur => ?_⟩
  · simp [scanStep, hp, EventOut.silent]
  · cases r <;> exact ⟨rfl, rfl⟩

/-- Witness for the amended C7 at a concrete failing submit and a concrete
failing poll. -/
theorem claim7_error_surfacing_amended_witness :
    ((scanStep ⟨0, "", "", false, false, ⟨0, "UTC"⟩, "Asia/Kolkata"⟩
        (.submitErr (some "boom"))).2.alerts = [(some "boom").getD "Failed to save schedule"] ∧
      (scanStep ⟨0, "", "", false, false, ⟨0, "UTC"⟩, "Asia/Kolkata"⟩
        (.submitErr (some "boom"))).1 =
        ⟨0, "", "", false, false, ⟨0, "UTC"⟩, "Asia/Kolkata"⟩) ∧
    ((scanStep ⟨2, "InProgress", "m", false, true, ⟨0, "UTC"⟩, "Asia/Kolkata"⟩
        (.pollResult none)).2.alerts = [] ∧
      (scanStep ⟨2, "InProgress", "m", false, true, ⟨0, "UTC"⟩, "Asia/Kolkata"⟩
        (.pollResult none)).1.countdownMsg =
        (ScanState.mk 2 "InProgress" "m" false true ⟨0, "UTC"⟩ "Asia/Kolkata").countdownMsg ∧
      (scanStep ⟨2, "InProgress", "m", false, true, ⟨0, "UTC"⟩, "Asia/Kolkata"⟩
        (.pollResult none)).1.scanStatus = "" ∧
      (scanStep ⟨2, "InProgress", "m", false, true, ⟨0, "UTC"⟩, "Asia/Kolkata"⟩
        (.pollResult none)).1.polling = true ∧
      (scanStep ⟨2, "InProgress", "m", false, true, ⟨0, "UTC"⟩, "Asia/Kolkata"⟩
        (.pollResult none)).2.getTriggerStatus = true) :=
  ⟨claim7_error_surfacing_amended.1 ⟨0, "", "", false, false, ⟨0, "UTC"⟩, "Asia/Kolkata"⟩
      (some "boom"),
   claim7_error_surfacing_amended.2.1
      ⟨2, "InProgress", "m", false, true, ⟨0, "UTC"⟩, "Asia/Kolkata"⟩ rfl⟩

/-- Claim C5: a submission with a missing required field is rejected
client-side with no network request.  `handleAddUser` alerts and leaves the
pending users list unchanged when `cloudName`, `environment`, `rootId`,
`managementUnitId`, or the provider-dependent credential (the GCP JSON file
for GCP, otherwise the service-account name and password) is empty, and it
issues no HTTP request in any branch; the SignUp form's `required` inputs
block submission (so `handleSignup`'s `POST /signup` is never issued) when
any of its fields is empty. -/
theorem claim5_missing_fields_rejected :
    (∀ u : OnbUser,
      u.cloudName = "" ∨ u.environment = "" ∨ u.rootId = "" ∨
        u.managementUnitId = "" ∨ (u.cloudName = "GCP" ∧ u.gcpJsonFile = none) ∨
        (u.cloudName ≠ "GCP" ∧ (u.srvaccntName = "" ∨ u.srvacctPass = "")) →
      missingRequired u = true) ∧
    (∀ (u : OnbUser) (l : List OnbUser), missingRequired u = true →
      handleAddUser u l =
        { usersList := l, alerts := ["Please fill all fields"], requests := 0 }) ∧
    (∀ (u : OnbUser) (l : List OnbUser), (handleAddUser u l).requests = 0) ∧
    (∀ f : SignupForm, signupRequiredSatisfied f = false → signupFormSubmit f = 0) := by
  refine ⟨?_, ?_, ?_, ?_⟩
  · intro u h
    rcases h with h | h | h | h | ⟨h1, h2⟩ | ⟨h1, h2 | h2⟩ <;>
      simp [missingRequired, *]
  · intro u l h
    simp [handleAddUser, h]
  · intro u l
    by_cases h : missingRequired u = true <;> simp [handleAddUser, h]
  · intro f h
    simp [signupFormSubmit, h]

/-- Witness for C5: an AWS entry with an empty service-account password is
rejected without touching the list, and an all-empty signup form issues no
request. -/
theorem claim5_missing_fields_rejected_witness :
    missingRequired ⟨"AWS", "Production", "r1", "m1", "svc", "", none⟩ = true ∧
    handleAddUser ⟨"AWS", "Production", "r1", "m1", "svc", "", none⟩ [] =
      { usersList := [], alerts := ["Please fill all fields"], requests := 0 } ∧
    signupFormSubmit ⟨"", "", "", ""⟩ = 0 :=
  ⟨claim5_missing_fields_rejected.1 ⟨"AWS", "Production", "r1", "m1", "svc", "", none⟩
      (Or.inr (Or.inr (Or.inr (Or.inr (Or.inr ⟨by decide, Or.inr rfl⟩))))),
   claim5_missing_fields_rejected.2.1 ⟨"AWS", "Production", "r1", "m1", "svc", "", none⟩ []
      (by decide),
   claim5_missing_fields_rejected.2.2.2 ⟨"", "", "", ""⟩ (by decide)⟩

/-- Helper: `handleSubmit`'s validation loop over `CONFIG_TYPES` performs
exactly the ordered checks of `configChecks` and reports the first failing
one's message. -/
theorem validateTypes_eq_configChecks (dbType : Option String) (a : String → FieldVal) :
    validateTypes dbType a CONFIG_TYPES =
      ((configChecks dbType).find? fun c => badPercVal (a c.1)).map fun c => c.2 := by
  by_cases h1 : badPercVal (a "cmp_cpu_usage") <;>
  by_cases h2 : badPercVal (a "cmp_memory_usage") <;>
  by_cases h3 : badPercVal (a "cmp_network_usage") <;>
  by_cases h4 : badPercVal (a "k8s_node_cpu_percentage") <;>
  by_cases h5 : badPercVal (a "k8s_node_memory_percentage") <;>
  by_cases h6 : badPercVal (a "k8s_volume_percentage") <;>
  cases dbType <;>
  simp [validateTypes, checkFields, CONFIG_TYPES, configChecks, percentageFields,
    dbTypeOptions, List.find?, h1, h2, h3, h4, h5, h6]
  rename_i t
  cases hb : badPercVal (a (t ++ "_db_size")) <;> simp [hb]

/-- Claim C4: if any percentage-typed config field carries a non-empty
submitted value that is `NaN`, below 1 or above 100, then `handleSubmit`
sets an inline error message naming a percentage field with such a value
(the first one in `CONFIG_TYPES` order) and returns without issuing the
`POST /api/configs`; and when every percentage field (and the selected DB
size, if any) is empty or in range, the POST is issued — empty fields are
skipped, never rejected. -/
theorem claim4_percentage_validation :
    (∀ (dbType : Option String) (a : String → FieldVal),
      (∃ t ∈ percentageFields, badPercVal (a t.1) = true) →
      (handleSubmitConfig dbType a).posted = false ∧
        ∃ t ∈ percentageFields, badPercVal (a t.1) = true ∧
          (handleSubmitConfig dbType a).message = percErrorMsg t.2.1 t.2.2) ∧
    (∀ (dbType : Option String) (a : String → FieldVal),
      (∀ t ∈ percentageFields, badPercVal (a t.1) = false) →
      (∀ t, dbType = some t → badPercVal (a (t ++ "_db_size")) = false) →
      (handleSubmitConfig dbType a).posted = true) := by
  constructor
  · rintro dbType a ⟨t, ht, hbad⟩
    have hx : ∃ x ∈ percentageFields.map fun u => (u.1, percErrorMsg u.2.1 u.2.2),
        badPercVal (a x.1) = true :=
      ⟨(t.1, percErrorMsg t.2.1 t.2.2),
       List.mem_map_of_mem (fun u => (u.1, percErrorMsg u.2.1 u.2.2)) ht, hbad⟩
    have hsome :
        ((percentageFields.map fun u => (u.1, percErrorMsg u.2.1 u.2.2)).find?
          fun c => badPercVal (a c.1)).isSome := by
      rw [List.find?_isSome]
      obtain ⟨x, hx1, hx2⟩ := hx
      exact ⟨x, hx1, hx2⟩
    obtain ⟨c, hc⟩ := Option.isSome_iff_exists.mp hsome
    have hfind : (configChecks dbType).find? (fun c => badPercVal (a c.1)) = some c := by
      unfold configChecks
      rw [List.find?_append, hc]
      rfl
    have hcp := (List.find?_eq_some.mp hc).1
    have hcm : c ∈ percentageFields.map fun u => (u.1, percErrorMsg u.2.1 u.2.2) :=
      List.mem_of_find?_eq_some hc
    obtain ⟨u, hu, huc⟩ := List.mem_map.mp hcm
    refine ⟨?_, u, hu, ?_, ?_⟩
    · simp [handleSubmitConfig, validateTypes_eq_configChecks, hfind]
    · rw [← huc] at hcp
      exact hcp
    · simp [handleSubmitConfig, validateTypes_eq_configChecks, hfind, ← huc]
  · intro dbType a hall hdb
    have hnone : (configChecks dbType).find? (fun c => badPercVal (a c.1)) = none := by
      rw [List.find?_eq_none]
      intro x hxmem
      unfold configChecks at hxmem
      rw [List.mem_append] at hxmem
      rcases hxmem with hxmem | hxmem
      · obtain ⟨u, hu, huc⟩ := List.mem_map.mp hxmem
        rw [← huc]
        simp [hall u hu]
      · cases hdbt : dbType with
        | none => rw [hdbt] at hxmem; simp at hxmem
        | some t =>
          rw [hdbt] at hxmem
          simp at hxmem
          rw [hxmem]
          simp [hdb t hdbt]
    simp [handleSubmitConfig, validateTypes_eq_configChecks, hnone]

/-- Witness for C4: a submission whose `cmp_memory_usage` value is 0 (below
the minimum) is rejected without a POST; one whose only non-empty values
are in range is posted. -/
theorem claim4_percentage_validation_witness :
    ((handleSubmitConfig none
        (fun n => if n = "cmp_memory_usage" then .num 0 else .empty)).posted = false ∧
      ∃ t ∈ percentageFields,
        badPercVal ((fun n => if n = "cmp_memory_usage" then FieldVal.num 0 else .empty)
          t.1) = true ∧
        (handleSubmitConfig none
          (fun n => if n = "cmp_memory_usage" then .num 0 else .empty)).message =
          percErrorMsg t.2.1 t.2.2) ∧
    (handleSubmitConfig (some "sql")
      (fun n => if n = "sql_db_size" then .num 50 else .empty)).posted = true :=
  ⟨claim4_percentage_validation.1 none
      (fun n => if n = "cmp_memory_usage" then .num 0 else .empty)
      ⟨("cmp_memory_usage", "Memory Usage (%)", "Compute Engine"), by decide, by decide⟩,
   claim4_percentage_validation.2 (some "sql")
      (fun n => if n = "sql_db_size" then .num 50 else .empty)
      (by decide)
      (by intro t ht; cases ht; decide)⟩

/-- Helper: folding decimal digits from accumulator `a` stays below
`(a + 1) * 10 ^ length`. -/
theorem foldl_digits_bound (l : List Char) (hd : ∀ c ∈ l, c.isDigit = true) :
    ∀ a : Nat, l.foldl (fun a c => a * 10 + (c.toNat - 48)) a < (a + 1) * 10 ^ l.length := by
  induction l with
  | nil => intro a; simp
  | cons c l ih =>
    intro a
    have hc : c.toNat - 48 ≤ 9 := by
      have h := hd c (List.mem_cons_self c l)
      simp [Char.isDigit] at h
      obtain ⟨h1, h2⟩ := h
      rw [UInt32.le_def, BitVec.le_def] at h2
      simp [Char.toNat, UInt32.toNat] at h2 ⊢
      omega
    have ihb := ih (fun x hx => hd x (List.mem_cons_of_mem c hx)) (a * 10 + (c.toNat - 48))
    simp only [List.foldl_cons, List.length_cons]
    calc List.foldl (fun a c => a * 10 + (c.toNat - 48)) (a * 10 + (c.toNat - 48)) l
        < (a * 10 + (c.toNat - 48) + 1) * 10 ^ l.length := ihb
      _ ≤ ((a + 1) * 10) * 10 ^ l.length := by
          apply Nat.mul_le_mul_right
          omega
      _ = (a + 1) * 10 ^ (l.length + 1) := by ring

/-- Helper: the last step of the sanitizer (drop the final digit when the
value exceeds 100) yields the empty string or ≤ 3 digits of value ≤ 100,
for any all-digit input of at most 3 characters. -/
theorem sanitize_final_step (m : List Char) (hdig : ∀ c ∈ m, c.isDigit = true)
    (hlen : m.length ≤ 3) :
    (if String.mk m ≠ "" ∧ digitsVal (String.mk m) > 100 then String.mk m.dropLast
     else String.mk m) = "" ∨
      ((if String.mk m ≠ "" ∧ digitsVal (String.mk m) > 100 then String.mk m.dropLast
        else String.mk m).toList.all Char.isDigit = true ∧
       (if String.mk m ≠ "" ∧ digitsVal (String.mk m) > 100 then String.mk m.dropLast
        else String.mk m).length ≤ 3 ∧
       digitsVal (if String.mk m ≠ "" ∧ digitsVal (String.mk m) > 100 then
          String.mk m.dropLast else String.mk m) ≤ 100) := by
  split
  · rename_i h
    right
    refine ⟨?_, ?_, ?_⟩
    · rw [List.all_eq_true]
      intro c hcmem
      exact hdig c ((List.dropLast_sublist m).subset hcmem)
    · show m.dropLast.length ≤ 3
      simp [List.length_dropLast]
      omega
    · have hb := foldl_digits_bound m.dropLast
        (fun c hcmem => hdig c ((List.dropLast_sublist m).subset hcmem)) 0
      have hlen2 : m.dropLast.length ≤ 2 := by
        have hne : m ≠ [] := by
          intro hnil
          exact h.1 (by simp [hnil])
        have := List.length_dropLast m
        have hpos : 0 < m.length := List.length_pos.mpr hne
        omega
      have h10 : (10 : Nat) ^ m.dropLast.length ≤ 10 ^ 2 :=
        Nat.pow_le_pow_right (by omega) hlen2
      show m.dropLast.foldl (fun a c => a * 10 + (c.toNat - 48)) 0 ≤ 100
      have := hb
      simp only [Nat.one_mul] at this
      omega
  · rename_i h
    rcases Decidable.em (m = []) with hm | hm
    · left
      simp [hm]
    · right
      refine ⟨?_, ?_, ?_⟩
      · rw [List.all_eq_true]
        intro c hcmem
        exact hdig c hcmem
      · exact hlen
      · push_neg at h
        have := h (by simp [String.ext_iff, hm])
        omega

/-- Claim C8: after any sequence of onChange events a percentage-typed field
stores either the empty string or an all-digit string of at most 3
characters whose numeric value is at most 100 (each onChange recomputes the
stored value as `sanitizePercentInput` of the event's full text, so the
single-application invariant is the reachability invariant); non-digit
characters are stripped and an entry exceeding 100 loses its last digit, as
the concrete runs show; and the value 0 is representable, below the
`[1,100]` submit-time minimum. -/
theorem claim8_sanitizer_invariant :
    (∀ input : String,
      sanitizePercentInput input = "" ∨
        ((sanitizePercentInput input).toList.all Char.isDigit = true ∧
         (sanitizePercentInput input).length ≤ 3 ∧
         digitsVal (sanitizePercentInput input) ≤ 100)) ∧
    sanitizePercentInput "0" = "0" ∧ digitsVal "0" = 0 ∧
    badPercVal (.num (0 : ℚ)) = true ∧
    sanitizePercentInput "12a34" = "12" ∧ sanitizePercentInput "999" = "99" ∧
    sanitizePercentInput "100" = "100" := by
  refine ⟨?_, by decide, by decide, by decide, by decide, by decide, by decide⟩
  intro input
  have hdig0 : ∀ c ∈ input.toList.filter Char.isDigit, c.isDigit = true :=
    fun c hc => (List.mem_filter.mp hc).2
  unfold sanitizePercentInput
  by_cases h3 : (String.mk (input.toList.filter Char.isDigit)).length > 3
  · simp only [h3, if_true]
    exact sanitize_final_step ((input.toList.filter Char.isDigit).take 3)
      (fun c hc => hdig0 c (List.take_subset 3 _ hc))
      (by simp)
  · simp only [h3, if_false]
    exact sanitize_final_step (input.toList.filter Char.isDigit) hdig0 (by
      have : (String.mk (input.toList.filter Char.isDigit)).length =
        (input.toList.filter Char.isDigit).length := rfl
      omega)

/-- Helper: writing key `k` makes it readable. -/
theorem lookupAcc_updateAcc_self (acc : List (String × Option ℚ)) (k : String)
    (v : Option ℚ) : lookupAcc (updateAcc acc k v) k = some v := by
  induction acc with
  | nil => simp [updateAcc, lookupAcc, List.find?]
  | cons p rest ih =>
    by_cases hp : p.1 = k
    · simp [updateAcc, lookupAcc, List.find?, hp]
    · simp only [updateAcc, hp, if_false]
      simpa [lookupAcc, List.find?, hp] using ih

/-- Helper: writing key `k` leaves other keys unchanged. -/
theorem lookupAcc_updateAcc_other (acc : List (String × Option ℚ)) (k g : String)
    (v : Option ℚ) (hgk : g ≠ k) :
    lookupAcc (updateAcc acc k v) g = lookupAcc acc g := by
  have hkg : ¬k = g := fun h => hgk h.symm
  induction acc with
  | nil => simp [updateAcc, lookupAcc, List.find?, hkg]
  | cons p rest ih =>
    by_cases hp : p.1 = k
    · have hpg : ¬p.1 = g := by rw [hp]; exact hkg
      simp [updateAcc, lookupAcc, List.find?, hp, hpg, hkg]
    · by_cases hpg : p.1 = g
      · simp [updateAcc, lookupAcc, List.find?, hp, hpg, hgk]
      · simp only [updateAcc, hp, if_false]
        simpa [lookupAcc, List.find?, hpg] using ih

/-- Helper: the accumulated object of a dashboard group-by agrees with the
specification-side closed form on every group key. -/
theorem aggregate_lookup (key cost : Resource → JSVal) (g : String)
    (rows : List Resource) :
    lookupAcc (aggregate key cost rows) g = groupTotal key cost g rows := by
  induction rows using List.reverseRecOn with
  | nil => simp [aggregate, groupTotal, lookupAcc, List.find?]
  | append_singleton xs r ih =>
    have hagg : aggregate key cost (xs ++ [r]) = aggStep key cost (aggregate key cost xs) r := by
      simp [aggregate, List.foldl_append]
    by_cases hcon : ((key r).truthy && (cost r).truthy) = true
    · by_cases hg : g = keyStr (key r)
      · subst hg
        have hcontr : contributes key cost (keyStr (key r)) r = true := by
          simp [contributes, hcon]
        rw [hagg]
        simp only [aggStep, hcon, if_true]
        rw [lookupAcc_updateAcc_self]
        rw [groupTotal, List.filter_append]
        simp only [List.filter_cons, List.filter_nil, hcontr, if_true]
        by_cases hemp : (xs.filter (contributes key cost (keyStr (key r)))).isEmpty
        · have hnone : lookupAcc (aggregate key cost xs) (keyStr (key r)) = none := by
            rw [ih, groupTotal, if_pos hemp]
          rw [hnone]
          rw [List.isEmpty_iff] at hemp
          simp [hemp]
        · have hsome : lookupAcc (aggregate key cost xs) (keyStr (key r)) =
              some ((xs.filter (contributes key cost (keyStr (key r)))).foldl
                (fun a r => jsAdd a (cost r).toNumber) none) := by
            rw [ih, groupTotal, if_neg hemp]
          rw [hsome]
          have hne : ¬((xs.filter (contributes key cost (keyStr (key r)))) ++ [r]).isEmpty := by
            simp
          rw [if_neg hne, List.foldl_append]
          simp
      · rw [hagg]
        simp only [aggStep, hcon, if_true]
        rw [lookupAcc_updateAcc_other _ _ _ _ hg, ih]
        have hkg : ¬keyStr (key r) = g := fun h => hg h.symm
        have hcontr : contributes key cost g r = false := by
          simp [contributes, hkg]
        rw [groupTotal, groupTotal, List.filter_append]
        simp [List.filter_cons, hcontr]
    · rw [hagg]
      simp only [aggStep, hcon, Bool.false_eq_true, if_false]
      rw [ih]
      have hcontr : contributes key cost g r = false := by
        simp only [Bool.not_eq_true] at hcon
        simp only [contributes, hcon, Bool.false_and]
      rw [groupTotal, groupTotal, List.filter_append]
      simp [List.filter_cons, hcontr]

/-- Claim C9: in every dashboard group-by summary a record contributes
`Number(TotalCost)` to its group exactly when both the group key and
`TotalCost` are truthy (the closed form `groupTotal` filters on exactly that
condition), each of the eight chart summaries is such a group-by; a record
with falsy cost (cost `0`, empty string, or absent) or falsy key leaves
every summary unchanged while still being counted by `totalResources`; and
the resource table is sorted non-increasingly by `parseFloat(TotalCost)`
with non-numeric costs treated as 0. -/
theorem claim9_dashboard_aggregation :
    (∀ (key cost : Resource → JSVal) (g : String) (rows : List Resource),
      lookupAcc (aggregate key cost rows) g = groupTotal key cost g rows) ∧
    (cioCostSummary = aggregate (fun r => r.CIO) (fun r => r.TotalCost) ∧
     entityCostSummary = aggregate (fun r => r.Entity) (fun r => r.TotalCost) ∧
     regionCostSummary = aggregate (fun r => r.Region) (fun r => r.TotalCost) ∧
     resourceTypeSummary = aggregate (fun r => r.ResourceType) (fun r => r.TotalCost) ∧
     cloudProviderSummary = aggregate (fun r => r.CloudProvider) (fun r => r.TotalCost) ∧
     environmentSummary = aggregate (fun r => r.Environment) (fun r => r.TotalCost) ∧
     costCenterSummary = aggregate (fun r => r.CostCenter) (fun r => r.TotalCost) ∧
     applicationCodeSummary = aggregate (fun r => r.ApplicationCode) (fun r => r.TotalCost)) ∧
    (∀ (key cost : Resource → JSVal) (r : Resource) (rows : List Resource),
      ((key r).truthy && (cost r).truthy) = false →
      aggregate key cost (r :: rows) = aggregate key cost rows ∧
      totalResources (r :: rows) = totalResources rows + 1) ∧
    ((JSVal.num 0).truthy = false ∧ (JSVal.str "").truthy = false ∧
      JSVal.undef.truthy = false) ∧
    (∀ rows : List Resource,
      List.Sorted (fun a b => costKey b ≤ costKey a) (sortResources rows) ∧
      List.Perm (sortResources rows) rows) := by
  refine ⟨aggregate_lookup, ⟨rfl, rfl, rfl, rfl, rfl, rfl, rfl, rfl⟩, ?_, ?_, ?_⟩
  · intro key cost r rows hcon
    constructor
    · simp [aggregate, List.foldl_cons, aggStep, hcon]
    · simp [totalResources]
  · refine ⟨by decide, by decide, by decide⟩
  · intro rows
    exact ⟨List.sorted_insertionSort _ rows, List.perm_insertionSort _ rows⟩

/-- Witness for C9's exclusion clause: a record with truthy CIO but cost 0
is excluded from the CIO summary yet counted by `totalResources`. -/
theorem claim9_dashboard_aggregation_witness :
    aggregate (fun r => r.CIO) (fun r => r.TotalCost)
        (⟨.str "cio1", .str "e", .str "r", .str "t", .str "p", .str "env", .str "cc",
           .str "ac", .num 0⟩ :: []) =
      aggregate (fun r => r.CIO) (fun r => r.TotalCost) [] ∧
    totalResources
        (⟨.str "cio1", .str "e", .str "r", .str "t", .str "p", .str "env", .str "cc",
           .str "ac", .num 0⟩ :: []) = totalResources [] + 1 :=
  claim9_dashboard_aggregation.2.2.1 (fun r => r.CIO) (fun r => r.TotalCost)
    ⟨.str "cio1", .str "e", .str "r", .str "t", .str "p", .str "env", .str "cc",
      .str "ac", .num 0⟩ [] (by decide)

end CloudCreators
